import Mathlib

/-!
Verification of the multi-tenant "spaces" layer of the rSwag storefront.

The definitions below are shallow embeddings of the TypeScript/JavaScript
source:

* `resolveTenant` embeds the Next.js `middleware` function
  (frontend middleware, found in `next.config.mjs`): it reads the `host`
  header (`|| ""` when absent), strips the port with `split(":")[0]`,
  lowercases, derives the space id from the `.rswag.online` subdomain via
  JavaScript's `String.replace` (which replaces only the FIRST occurrence
  of a string pattern), and on `localhost`/`127.0.0.1` honours a truthy
  `_space` query parameter as an override.
* `getCartKey` embeds `getCartKey` from `lib/spaces` (re-exported through
  `app/layout.tsx`): a JavaScript falsy check `!spaceId` conflates an
  absent id with the empty string.
* `SpaceTheme`, `themeEntries`, `themeAssignments`, `themeToCSS` embed the
  `SpaceTheme` interface, `THEME_VAR_MAP` and `themeToCSS` from
  `lib/spaces`; a JavaScript truthiness filter on a string field keeps
  exactly the non-empty fields.
* `getProductsParams` / `getProductsUrl` embed the query-string
  construction of `getProducts` in the products page: the `space`
  parameter is set only when the space id is truthy and not `"default"`.
  (`URLSearchParams` percent-encoding is not modelled; the claims under
  verification quantify over which parameters are present, not over the
  encoding of reserved characters.)
* `storeRemove` / `clearCartEntry` embed the `localStorage.removeItem`
  calls of the checkout-success page and of `fetchCart` in the cart page,
  with `localStorage` modelled as a partial map from keys to values.

JavaScript strings are modelled as `String`, nullable values as `Option`,
and JavaScript truthiness of a string as the test for non-emptiness.
-/

/-- `host.split(":")[0]`: the part of the host header before the first
colon (the port separator). -/
def stripPort (s : String) : String :=
  ⟨s.data.takeWhile (fun c => c ≠ ':')⟩

/-- `hostname.toLowerCase()` restricted to the ASCII range, which is all
the middleware's comparisons depend on. -/
def lowerAscii (s : String) : String :=
  ⟨s.data.map Char.toLower⟩

/-- `hostname.endsWith(suffix)`. -/
def strEndsWith (s suffix : String) : Bool :=
  decide (suffix.data <:+ s.data)

/-- Core of JavaScript `String.prototype.replace` with a string pattern:
replace only the leftmost occurrence of `pat` by `rep`; leave the input
unchanged when `pat` does not occur. -/
def replaceFirstAux (pat rep : List Char) : List Char → List Char
  | [] => if pat = [] then rep else []
  | c :: cs =>
      if pat <+: (c :: cs) then rep ++ (c :: cs).drop pat.length
      else c :: replaceFirstAux pat rep cs

/-- `s.replace(pat, rep)` for a string pattern (first occurrence only). -/
def replaceFirst (s pat rep : String) : String :=
  ⟨replaceFirstAux pat.data rep.data s.data⟩

/-- The platform root-domain suffix tested by the middleware. -/
def rootSuffix : String := ".rswag.online"

/-- JavaScript truthiness of a nullable string (`null`, `undefined` and
`""` are falsy). -/
def jsTruthy : Option String → Bool
  | none => false
  | some v => v != ""

/-- The middleware's space resolution: `host` is the raw `host` header
(`none` when the header is absent) and `spaceParam` the raw value of the
`_space` query parameter (`none` when absent).  Returns the `spaceId`
that the middleware stores in the `space_id` cookie. -/
def resolveTenant (host spaceParam : Option String) : String :=
  let hostname := lowerAscii (stripPort (host.getD ""))
  let spaceId :=
    if strEndsWith hostname rootSuffix then replaceFirst hostname rootSuffix ""
    else "default"
  if hostname = "localhost" ∨ hostname = "127.0.0.1" then
    if jsTruthy spaceParam then spaceParam.getD "" else spaceId
  else spaceId

/-- `getCartKey(spaceId?)` from `lib/spaces`:
`if (!spaceId || spaceId === "default") return "cart_id";
 return ` followed by the template `cart_id_${spaceId}`. -/
def getCartKey : Option String → String
  | none => "cart_id"
  | some spaceId =>
      if spaceId = "" ∨ spaceId = "default" then "cart_id"
      else "cart_id_" ++ spaceId

/-- The `SpaceTheme` interface: one string per named style role.  A role
that the tenant's JSON configuration leaves out is modelled by `""`,
which is falsy in JavaScript exactly like an absent field. -/
structure SpaceTheme where
  primary : String
  primary_foreground : String
  secondary : String
  secondary_foreground : String
  background : String
  foreground : String
  card : String
  card_foreground : String
  popover : String
  popover_foreground : String
  muted : String
  muted_foreground : String
  accent : String
  accent_foreground : String
  destructive : String
  destructive_foreground : String
  border : String
  input : String
  ring : String

/-- `Object.entries(THEME_VAR_MAP)` paired with the theme's value for each
key, in the order the map literal declares them. -/
def themeEntries (t : SpaceTheme) : List (String × String) :=
  [("--primary", t.primary),
   ("--primary-foreground", t.primary_foreground),
   ("--secondary", t.secondary),
   ("--secondary-foreground", t.secondary_foreground),
   ("--background", t.background),
   ("--foreground", t.foreground),
   ("--card", t.card),
   ("--card-foreground", t.card_foreground),
   ("--popover", t.popover),
   ("--popover-foreground", t.popover_foreground),
   ("--muted", t.muted),
   ("--muted-foreground", t.muted_foreground),
   ("--accent", t.accent),
   ("--accent-foreground", t.accent_foreground),
   ("--destructive", t.destructive),
   ("--destructive-foreground", t.destructive_foreground),
   ("--border", t.border),
   ("--input", t.input),
   ("--ring", t.ring)]

/-- The values of the nineteen theme roles, in declaration order. -/
def themeValues (t : SpaceTheme) : List String :=
  [t.primary, t.primary_foreground, t.secondary, t.secondary_foreground,
   t.background, t.foreground, t.card, t.card_foreground, t.popover,
   t.popover_foreground, t.muted, t.muted_foreground, t.accent,
   t.accent_foreground, t.destructive, t.destructive_foreground,
   t.border, t.input, t.ring]

/-- The filtered, mapped assignment list of `themeToCSS`:
`.filter(([key]) => theme[key]).map(([key, cssVar]) => ...)` produces one
`cssVar: value;` string per truthy role. -/
def themeAssignments (t : SpaceTheme) : List String :=
  ((themeEntries t).filter (fun p => p.2 != "")).map
    (fun p => p.1 ++ ": " ++ p.2 ++ ";")

/-- `themeToCSS(theme)`: the assignments joined with `.join("\n    ")`. -/
def themeToCSS (t : SpaceTheme) : String :=
  String.intercalate "\n    " (themeAssignments t)

/-- A theme with only `primary` and `background` populated (all other
roles absent); with `p = b = ""` it is the fully absent theme. -/
def themeOnly (p b : String) : SpaceTheme :=
  { primary := p, primary_foreground := "", secondary := "",
    secondary_foreground := "", background := b, foreground := "",
    card := "", card_foreground := "", popover := "",
    popover_foreground := "", muted := "", muted_foreground := "",
    accent := "", accent_foreground := "", destructive := "",
    destructive_foreground := "", border := "", input := "", ring := "" }

/-- The query parameters `getProducts` builds: `space` is set exactly when
`spaceId && spaceId !== "default"`. -/
def getProductsParams (spaceId : String) : List (String × String) :=
  if spaceId ≠ "" ∧ spaceId ≠ "default" then [("space", spaceId)] else []

/-- `URLSearchParams.toString()`: `key=value` pairs joined with `&`. -/
def serializeParams : List (String × String) → String
  | [] => ""
  | [p] => p.1 ++ "=" ++ p.2
  | p :: q :: rest => p.1 ++ "=" ++ p.2 ++ "&" ++ serializeParams (q :: rest)

/-- The URL `getProducts` fetches, with the default
`NEXT_PUBLIC_API_URL` of `http://localhost:8000/api`:
the query string is appended only when it is non-empty. -/
def getProductsUrl (spaceId : String) : String :=
  let q := serializeParams (getProductsParams spaceId)
  "http://localhost:8000/api" ++ "/products" ++ (if q ≠ "" then "?" ++ q else "")

/-- `localStorage.removeItem(key)` on a storage modelled as a partial map. -/
def storeRemove (st : String → Option String) (key : String) :
    String → Option String :=
  fun k => if k = key then none else st k

/-- The cart-clearing step shared by the checkout-success page and the
expired-cart branch of `fetchCart`:
`localStorage.removeItem(getCartKey(getSpaceIdFromCookie()))`. -/
def clearCartEntry (spaceId : String) (st : String → Option String) :
    String → Option String :=
  storeRemove st (getCartKey (some spaceId))

/-- A concrete storage holding a single legacy (default-tenant) cart id. -/
def exampleStore : String → Option String :=
  fun k => if k = "cart_id" then some "abc" else none

/-- Helper: a string of length 7 is never a string of length `8 + n`. -/
theorem cart_id_ne_append (s : String) : ("cart_id" : String) ≠ "cart_id_" ++ s := by
  intro h
  have hlen := congrArg String.length h
  rw [String.length_append] at hlen
  have h1 : ("cart_id" : String).length = 7 := by decide
  have h2 : ("cart_id_" : String).length = 8 := by decide
  omega

/-- Claim C9: `getCartKey` treats an absent space id and the empty-string
space id exactly like the default token, returning the unscoped base key
`"cart_id"`; in particular the distinct ids `""` and `"default"` collide
on the same storage key. -/
theorem getCartKey_empty_alias :
    getCartKey none = "cart_id" ∧ getCartKey (some "") = "cart_id" ∧
    getCartKey (some "default") = "cart_id" ∧
    getCartKey (some "") = getCartKey (some "default") ∧
    ("" : String) ≠ "default" := by decide

/-- Counterexample to claim C2 as stated: the distinct space ids `""` and
`"default"` are mapped to the same cart key, so `getCartKey` is not
injective on all pairs of distinct ids. -/
theorem getCartKey_not_injective :
    ("" : String) ≠ "default" ∧
    getCartKey (some "") = getCartKey (some "default") := by decide

/-- Claim C2 (amended): `getCartKey` is injective on non-empty space ids
(the empty id aliases the default token), it is a pure deterministic
function, and the default token maps to the fixed constant `"cart_id"`. -/
theorem getCartKey_injective_on_nonempty :
    (∀ a b : String, a ≠ "" → b ≠ "" → a ≠ b →
      getCartKey (some a) ≠ getCartKey (some b)) ∧
    (∀ x : Option String, getCartKey x = getCartKey x) ∧
    getCartKey (some "default") = "cart_id" := by
  refine ⟨?_, fun _ => rfl, by decide⟩
  intro a b ha hb hab heq
  simp only [getCartKey] at heq
  split_ifs at heq with h1 h2 h2
  · exact hab ((h1.resolve_left ha).trans (h2.resolve_left hb).symm)
  · exact absurd heq (cart_id_ne_append b)
  · exact absurd heq.symm (cart_id_ne_append a)
  · refine hab (String.ext ?_)
    have hd := congrArg String.data heq
    rw [String.data_append, String.data_append] at hd
    exact List.append_cancel_left hd

/-- Witness for C2 at concrete inputs. -/
theorem getCartKey_injective_on_nonempty_witness :
    getCartKey (some "acme") ≠ getCartKey (some "other") ∧
    getCartKey (some "default") = "cart_id" :=
  ⟨getCartKey_injective_on_nonempty.1 "acme" "other" (by decide) (by decide)
      (by decide),
    getCartKey_injective_on_nonempty.2.2⟩

/-- Counterexample to claim C6 as stated: the non-default space id `""`
is not mapped to the suffixed key (which would be `"cart_id_"`), but to
the unscoped base key. -/
theorem getCartKey_empty_not_suffixed :
    getCartKey (some "") = "cart_id" ∧
    getCartKey (some "") ≠ "cart_id_" ++ "" := by decide

/-- Claim C6 (amended): `getCartKey` maps the default token — and equally
an absent or empty space id — to the unscoped base key `"cart_id"`, and
every other (non-empty, non-default) id `t` to `"cart_id_" ++ t`. -/
theorem getCartKey_shape :
    getCartKey (some "default") = "cart_id" ∧
    getCartKey none = "cart_id" ∧
    getCartKey (some "") = "cart_id" ∧
    ∀ t : String, t ≠ "" → t ≠ "default" → getCartKey (some t) = "cart_id_" ++ t := by
  refine ⟨by decide, rfl, by decide, ?_⟩
  intro t h1 h2
  simp [getCartKey, h1, h2]

/-- Witness for C6 at a concrete input. -/
theorem getCartKey_shape_witness :
    getCartKey (some "acme") = "cart_id_" ++ "acme" ∧
    getCartKey (some "default") = "cart_id" :=
  ⟨getCartKey_shape.2.2.2 "acme" (by decide) (by decide), getCartKey_shape.1⟩

/-- Helper: the assignment list of `themeToCSS` has one element per
non-empty theme value. -/
theorem themeAssignments_length (t : SpaceTheme) :
    (themeAssignments t).length = (themeValues t).countP (fun v => v != "") := by
  have hv : themeValues t = (themeEntries t).map Prod.snd := rfl
  rw [themeAssignments, List.length_map, ← List.countP_eq_length_filter, hv,
    List.countP_map]
  rfl

/-- Claim C7: `themeToCSS` joins one style-variable assignment per theme
role whose value is non-empty and none for absent roles: the number of
assignments equals the number of non-empty role values; a theme with only
`primary` and `background` set yields exactly two assignments, and a
theme with no fields set yields zero. -/
theorem themeToCSS_presence :
    (∀ t : SpaceTheme,
      themeToCSS t = String.intercalate "\n    " (themeAssignments t)) ∧
    (∀ t : SpaceTheme,
      (themeAssignments t).length = (themeValues t).countP (fun v => v != "")) ∧
    (∀ p b : String, p ≠ "" → b ≠ "" →
      (themeAssignments (themeOnly p b)).length = 2) ∧
    (themeAssignments (themeOnly "" "")).length = 0 := by
  refine ⟨fun _ => rfl, themeAssignments_length, ?_, by decide⟩
  intro p b hp hb
  rw [themeAssignments_length]
  simp [themeOnly, themeValues, List.countP_cons, hp, hb]

/-- Witness for C7 at concrete themes. -/
theorem themeToCSS_presence_witness :
    (themeAssignments (themeOnly "#0af" "#fff")).length = 2 ∧
    (themeAssignments (themeOnly "" "")).length = 0 :=
  ⟨themeToCSS_presence.2.2.1 "#0af" "#fff" (by decide) (by decide),
    themeToCSS_presence.2.2.2⟩

/-- Helper: the catalog URL for a present, non-default space id carries
the `space` query parameter. -/
theorem getProductsUrl_nonDefault (s : String) (h1 : s ≠ "") (h2 : s ≠ "default") :
    getProductsUrl s = "http://localhost:8000/api/products?space=" ++ s := by
  have hparams : getProductsParams s = [("space", s)] := by
    simp [getProductsParams, h1, h2]
  have hser : serializeParams [("space", s)] = "space" ++ "=" ++ s := rfl
  have hne : ("space" : String) ++ "=" ++ s ≠ "" := by
    intro h
    have hl := congrArg String.length h
    rw [String.length_append, String.length_append] at hl
    have c1 : ("space" : String).length = 5 := by decide
    have c2 : ("=" : String).length = 1 := by decide
    have c3 : ("" : String).length = 0 := by decide
    rw [c1, c2, c3] at hl
    omega
  simp only [getProductsUrl, hparams, hser]
  rw [if_pos hne]
  apply String.ext
  simp only [String.data_append]
  simp only [← List.append_assoc]
  congr 1

/-- Claim C8: the product catalog fetch carries the `space={spaceId}`
query parameter exactly when the resolved space id is non-empty and not
the default token; for the default token (and the empty id) the `space`
parameter is omitted and the bare products URL is fetched. -/
theorem getProducts_space_param :
    (∀ s : String, getProductsParams s = [("space", s)] ↔ (s ≠ "" ∧ s ≠ "default")) ∧
    (∀ s : String, s ≠ "" → s ≠ "default" →
      getProductsUrl s = "http://localhost:8000/api/products?space=" ++ s) ∧
    getProductsUrl "default" = "http://localhost:8000/api/products" ∧
    getProductsUrl "" = "http://localhost:8000/api/products" := by
  refine ⟨?_, getProductsUrl_nonDefault, by decide, by decide⟩
  intro s
  constructor
  · intro h
    by_contra hc
    rw [getProductsParams, if_neg hc] at h
    simp at h
  · intro hc
    simp [getProductsParams, hc.1, hc.2]

/-- Witness for C8 at concrete inputs. -/
theorem getProducts_space_param_witness :
    getProductsParams "acme" = [("space", "acme")] ∧
    getProductsUrl "acme" = "http://localhost:8000/api/products?space=" ++ "acme" :=
  ⟨(getProducts_space_param.1 "acme").mpr ⟨by decide, by decide⟩,
    getProducts_space_param.2.1 "acme" (by decide) (by decide)⟩

/-- Counterexample to claim C10 as stated: the space ids `""` and
`"default"` are distinct, yet clearing the cart for the resolved tenant
`"default"` also empties the cart-key entry of the tenant `""`, because
both ids derive the same storage key. -/
theorem clearCart_alias_violation :
    ("" : String) ≠ "default" ∧
    clearCartEntry "default" exampleStore (getCartKey (some "")) ≠
      exampleStore (getCartKey (some "")) := by decide

/-- Claim C10 (amended): clearing the cart removes exactly the storage
entry under the current tenant's cart key; every other key — in
particular the cart key of any other tenant id whose key differs from the
current one — is left unchanged. -/
theorem clearCart_frame (cur : String) (st : String → Option String) :
    clearCartEntry cur st (getCartKey (some cur)) = none ∧
    (∀ k, k ≠ getCartKey (some cur) → clearCartEntry cur st k = st k) ∧
    (∀ other, getCartKey (some other) ≠ getCartKey (some cur) →
      clearCartEntry cur st (getCartKey (some other)) =
        st (getCartKey (some other))) := by
  refine ⟨by simp [clearCartEntry, storeRemove], ?_, ?_⟩
  · intro k hk
    simp [clearCartEntry, storeRemove, hk]
  · intro other hother
    simp [clearCartEntry, storeRemove, hother]

/-- Witness for C10 at concrete inputs. -/
theorem clearCart_frame_witness :
    clearCartEntry "acme" exampleStore (getCartKey (some "acme")) = none ∧
    clearCartEntry "acme" exampleStore "cart_id" = exampleStore "cart_id" ∧
    clearCartEntry "acme" exampleStore (getCartKey (some "other")) =
      exampleStore (getCartKey (some "other")) :=
  ⟨(clearCart_frame "acme" exampleStore).1,
    (clearCart_frame "acme" exampleStore).2.1 "cart_id" (by decide),
    (clearCart_frame "acme" exampleStore).2.2 "other" (by decide)⟩

/-- Helper: when the leftmost occurrence of `pat` in `l ++ pat` is the
trailing one, replacing the first occurrence by nothing yields `l`. -/
theorem replaceFirstAux_append_self (pat : List Char) :
    ∀ l : List Char, (∀ i, i < l.length → ¬ pat <+: (l ++ pat).drop i) →
      replaceFirstAux pat [] (l ++ pat) = l := by
  intro l
  induction l with
  | nil =>
    intro _
    rcases pat with _ | ⟨p, ps⟩
    · simp [replaceFirstAux]
    · simp [replaceFirstAux, List.prefix_refl, List.drop_length]
  | cons c cs ih =>
    intro hno
    have h0 : ¬ pat <+: c :: (cs ++ pat) := by
      have := hno 0 (by simp)
      simpa using this
    rw [List.cons_append, replaceFirstAux, if_neg h0]
    congr 1
    apply ih
    intro i hi
    have := hno (i + 1) (by simp; omega)
    simpa using this

/-- Counterexample to claim C1 as stated: JavaScript's `replace` removes
the FIRST occurrence of `".rswag.online"`, so a hostname in which the
suffix substring also occurs earlier does not resolve to the label
preceding the trailing suffix. -/
theorem resolveTenant_first_occurrence_cex :
    resolveTenant (some "a.rswag.online.b.rswag.online") none = "a.b.rswag.online" ∧
    ("a.b.rswag.online" : String) ≠ "a.rswag.online.b" ∧
    ("a.b.rswag.online" : String) ≠ "b" := by decide

/-- Claim C1 (amended): for every host header whose port-stripped,
lowercased hostname is `{label}.rswag.online` with the substring
`".rswag.online"` occurring only as the trailing suffix, the middleware
resolves the space id to `{label}` (regardless of any `_space`
parameter). -/
theorem resolveTenant_subdomain (h label : String) (sp : Option String)
    (hhost : lowerAscii (stripPort h) = label ++ rootSuffix)
    (hfirst : ∀ i, i < label.data.length →
      ¬ rootSuffix.data <+: (label.data ++ rootSuffix.data).drop i) :
    resolveTenant (some h) sp = label := by
  have hends : strEndsWith (label ++ rootSuffix) rootSuffix = true := by
    rw [strEndsWith, decide_eq_true_eq, String.data_append]
    exact List.suffix_append _ _
  have hrep : replaceFirst (label ++ rootSuffix) rootSuffix "" = label := by
    apply String.ext
    show replaceFirstAux rootSuffix.data ("" : String).data
      (label ++ rootSuffix).data = label.data
    rw [String.data_append, (rfl : ("" : String).data = [])]
    exact replaceFirstAux_append_self _ _ hfirst
  have hlen13 : rootSuffix.length = 13 := by decide
  have hne1 : label ++ rootSuffix ≠ "localhost" := by
    intro hq
    have hl := congrArg String.length hq
    rw [String.length_append, hlen13,
      (by decide : ("localhost" : String).length = 9)] at hl
    omega
  have hne2 : label ++ rootSuffix ≠ "127.0.0.1" := by
    intro hq
    have hl := congrArg String.length hq
    rw [String.length_append, hlen13,
      (by decide : ("127.0.0.1" : String).length = 9)] at hl
    omega
  simp only [resolveTenant, Option.getD_some]
  rw [hhost]
  simp [hends, hrep, hne1, hne2]

/-- Witness for C1 at a concrete input (uppercase host with a port). -/
theorem resolveTenant_subdomain_witness :
    resolveTenant (some "ACME.rswag.online:8443") (some "evil") = "acme" :=
  resolveTenant_subdomain "ACME.rswag.online:8443" "acme" (some "evil")
    (by decide) (by decide)

/-- Claim C3: on any host whose port-stripped, lowercased hostname is not
a recognized local host, the `_space` query parameter never influences
the resolved space id. -/
theorem resolveTenant_ignores_space_param (h : String) (sp₁ sp₂ : Option String)
    (h1 : lowerAscii (stripPort h) ≠ "localhost")
    (h2 : lowerAscii (stripPort h) ≠ "127.0.0.1") :
    resolveTenant (some h) sp₁ = resolveTenant (some h) sp₂ := by
  simp [resolveTenant, h1, h2]

/-- Witness for C3 at a concrete input. -/
theorem resolveTenant_ignores_space_param_witness :
    resolveTenant (some "acme.rswag.online") (some "evil") =
      resolveTenant (some "acme.rswag.online") none :=
  resolveTenant_ignores_space_param "acme.rswag.online" (some "evil") none
    (by decide) (by decide)

/-- Claim C4: resolution is a total function (the embedding is a total
Lean function, mirroring that the middleware never throws), and every
host header — absent, empty or malformed — whose processed hostname does
not end in the root suffix and is not a recognized local host resolves to
the literal default token. -/
theorem resolveTenant_total_default (host sp : Option String)
    (hend : strEndsWith (lowerAscii (stripPort (host.getD ""))) rootSuffix = false)
    (h1 : lowerAscii (stripPort (host.getD "")) ≠ "localhost")
    (h2 : lowerAscii (stripPort (host.getD "")) ≠ "127.0.0.1") :
    resolveTenant host sp = "default" := by
  simp [resolveTenant, hend, h1, h2]

/-- Witness for C4: absent header, empty header, a dotless host, and a
production host name with an attempted override. -/
theorem resolveTenant_total_default_witness :
    resolveTenant none (some "evil") = "default" ∧
    resolveTenant (some "") none = "default" ∧
    resolveTenant (some "nodothost") none = "default" ∧
    resolveTenant (some "EXAMPLE.com:443") (some "acme") = "default" :=
  ⟨resolveTenant_total_default none (some "evil") (by decide) (by decide)
      (by decide),
    resolveTenant_total_default (some "") none (by decide) (by decide)
      (by decide),
    resolveTenant_total_default (some "nodothost") none (by decide) (by decide)
      (by decide),
    resolveTenant_total_default (some "EXAMPLE.com:443") (some "acme")
      (by decide) (by decide) (by decide)⟩

/-- Claim C5: on a recognized local host, a non-empty `_space` parameter
value becomes the resolved space id, and without the parameter the
resolved id is the default token. -/
theorem resolveTenant_local_override (h : String)
    (hloc : lowerAscii (stripPort h) = "localhost" ∨
      lowerAscii (stripPort h) = "127.0.0.1") :
    (∀ p : String, p ≠ "" → resolveTenant (some h) (some p) = p) ∧
    resolveTenant (some h) none = "default" := by
  have hf1 : strEndsWith "localhost" rootSuffix = false := by decide
  have hf2 : strEndsWith "127.0.0.1" rootSuffix = false := by decide
  rcases hloc with hl | hl <;>
  · constructor
    · intro p hp
      simp [resolveTenant, hl, jsTruthy, hp, hf1, hf2]
    · simp [resolveTenant, hl, jsTruthy, hf1, hf2]

/-- Witness for C5 at a concrete local host with a port. -/
theorem resolveTenant_local_override_witness :
    resolveTenant (some "localhost:3000") (some "acme") = "acme" ∧
    resolveTenant (some "localhost:3000") none = "default" :=
  ⟨(resolveTenant_local_override "localhost:3000" (Or.inl (by decide))).1
      "acme" (by decide),
    (resolveTenant_local_override "localhost:3000" (Or.inl (by decide))).2⟩

example : resolveTenant (some "acme.rswag.online") none = "acme" := by decide
example : resolveTenant (some "ACME.rswag.online:8443") none = "acme" := by decide
example : resolveTenant (some "a.rswag.online.b.rswag.online") none = "a.b.rswag.online" := by decide
example : resolveTenant (some "example.com") (some "evil") = "default" := by decide
example : resolveTenant none none = "default" := by decide
example : resolveTenant (some "localhost:3000") (some "acme") = "acme" := by decide
example : resolveTenant (some "localhost") none = "default" := by decide
example : resolveTenant (some "127.0.0.1") (some "") = "default" := by decide
example : getCartKey (some "acme") = "cart_id_acme" := by decide
example : getCartKey (some "") = "cart_id" := by decide
example : getProductsUrl "acme" = "http://localhost:8000/api/products?space=acme" := by decide
example : getProductsUrl "default" = "http://localhost:8000/api/products" := by decide
example : (themeAssignments (themeOnly "#0af" "#fff")).length = 2 := by decide
example : themeToCSS (themeOnly "#0af" "") = "--primary: #0af;" := by decide
